import Mathlib

/-
Verification of the session resolution and redirect policy engine of
next-firebase-auth: a shallow embedding of src/withAuthUserTokenSSR.js and of
the standalone redirects module (the generator based variant of the engine),
with theorems about the redirect arbitration, the legacy strategy, the session
resolver and the orchestrator merge step.
-/

variable {κ ρ α β : Type}

/-- Authentication actions (src/AuthAction): RENDER, REDIRECT_TO_APP and
REDIRECT_TO_LOGIN are opaque string constants that the engine only compares
for equality. -/
inductive AuthAction : Type where
  | render
  | redirectToApp
  | redirectToLogin
deriving DecidableEq, Repr

/-- The session entity as the engine reads it: only the id field is consulted.
JS truthiness of AuthUser.id is modeled as the id being non-empty; an
anonymous session has an empty id. -/
structure AuthUser : Type where
  id : String
deriving DecidableEq, Repr

/-- A configured URL as accepted for appPageURL and authPageURL: JS null or
undefined, a string, or a URL computing function receiving the render context
and the AuthUser. -/
inductive URLVal (κ : Type) : Type where
  | null : URLVal κ
  | str : String → URLVal κ
  | func : (κ → AuthUser → String) → URLVal κ

/-- JS truthiness of a URL value: null and the empty string are falsy;
functions and non-empty strings are truthy. -/
def URLVal.truthy : URLVal κ → Bool
  | .null => false
  | .str s => s != ""
  | .func _ => true

/-- The JS logical or on URL values, as in authPageURL or the global default:
the left operand when truthy, else the right operand. -/
def URLVal.orElse (a b : URLVal κ) : URLVal κ :=
  if a.truthy then a else b

/-- Destination resolution: a string is used verbatim, a function is invoked
with the context and user. The null case only arises behind a truthiness
guard in the source and resolves to the empty string here. -/
def URLVal.resolve : URLVal κ → κ → AuthUser → String
  | .null, _, _ => ""
  | .str s, _, _ => s
  | .func f, c, u => f c u

/-- The declarative redirect configuration: a mapping with the two entries
authenticatedUser and unauthenticatedUser, each possibly absent. -/
structure RedirectConfig (ρ : Type) : Type where
  authenticatedUser : Option ρ
  unauthenticatedUser : Option ρ
deriving DecidableEq

/-- The slice of the global configuration (getConfig()) that the redirect
engine reads: the default legacy URLs and the global declarative config. -/
structure GlobalConfig (κ ρ : Type) : Type where
  authPageURL : URLVal κ
  appPageURL : URLVal κ
  redirectConfig : Option (RedirectConfig ρ)

/-- The redirectSettings object passed to processRedirect and destructured by
findLegacyRedirect and findRedirectRule. The field user stands for the
AuthUser entry of the source object. -/
structure RedirectSettings (κ ρ : Type) : Type where
  authPageURL : URLVal κ
  whenUnauthed : AuthAction
  whenAuthed : AuthAction
  appPageURL : URLVal κ
  user : AuthUser
  ctx : κ
  redirectConfig : Option (RedirectConfig ρ)

/-- Failures of the engine: configuration errors thrown with a message, and
the TypeError raised by a property access on a null object. -/
inductive JsError : Type where
  | configError : String → JsError
  | typeError : JsError
deriving DecidableEq, Repr

/-- A constructed redirect directive: destination and permanence flag. -/
structure RedirectDirective : Type where
  destination : String
  permanent : Bool
deriving DecidableEq, Repr

/-- A non-null engine value: either the declarative pass-through object whose
redirect field holds the (possibly absent) rule, or an object whose redirect
field holds a constructed legacy directive. -/
inductive RedirectOutcome (ρ : Type) : Type where
  | declRule : Option ρ → RedirectOutcome ρ
  | legacyDir : RedirectDirective → RedirectOutcome ρ
deriving DecidableEq

/-- redirectUnauthenticatedUser (withAuthUserTokenSSR.js, lines 71 to 98):
requires a truthy URL, resolves it, requires a non-empty destination, and
builds a temporary redirect directive. -/
def redirectUnauthenticatedUser (unauthenticatedRedirectURL : URLVal κ)
    (ctx : κ) (user : AuthUser) : Except JsError (RedirectOutcome ρ) :=
  if unauthenticatedRedirectURL.truthy = false then
    .error (.configError
      "When whenUnauthed is set to AuthAction.REDIRECT_TO_LOGIN, authPageURL must be set.")
  else if unauthenticatedRedirectURL.resolve ctx user = "" then
    .error (.configError
      "The authPageURL must be set to a non-empty string or resolve to a non-empty string")
  else
    .ok (.legacyDir ⟨unauthenticatedRedirectURL.resolve ctx user, false⟩)

/-- redirectAuthenticatedUser (withAuthUserTokenSSR.js, lines 105 to 127):
same shape as redirectUnauthenticatedUser for the authenticated direction. -/
def redirectAuthenticatedUser (authenticatedRedirectURL : URLVal κ)
    (ctx : κ) (user : AuthUser) : Except JsError (RedirectOutcome ρ) :=
  if authenticatedRedirectURL.truthy = false then
    .error (.configError
      "When whenAuthed is set to AuthAction.REDIRECT_TO_APP, appPageURL must be set.")
  else if authenticatedRedirectURL.resolve ctx user = "" then
    .error (.configError
      "The appPageURL must be set to a non-empty string or resolve to a non-empty string")
  else
    .ok (.legacyDir ⟨authenticatedRedirectURL.resolve ctx user, false⟩)

/-- findLegacyRedirect (withAuthUserTokenSSR.js, lines 134 to 162): merge each
URL with the global default, then branch on the auth state and action flags;
null when neither branch applies. This is also the post-yield branch logic of
the generator variant in the standalone redirects module. -/
def findLegacyRedirect (g : GlobalConfig κ ρ) (s : RedirectSettings κ ρ) :
    Except JsError (Option (RedirectOutcome ρ)) :=
  if s.user.id = "" ∧ s.whenUnauthed = AuthAction.redirectToLogin then
    (redirectUnauthenticatedUser (s.authPageURL.orElse g.authPageURL) s.ctx s.user).map some
  else if s.user.id ≠ "" ∧ s.whenAuthed = AuthAction.redirectToApp then
    (redirectAuthenticatedUser (s.appPageURL.orElse g.appPageURL) s.ctx s.user).map some
  else
    .ok none

/-- findRedirectRule as inlined in withAuthUserTokenSSR.js (lines 169 to 178).
The source computes config as the call-site redirectConfig falling back to the
global one and null-guards config, but then reads the rule fields from the
call-site redirectConfig itself; when only the global config exists that read
is a property access on null and raises a TypeError. The outer Option is the
null-or-object result, the inner Option the possibly undefined redirect
field. -/
def findRedirectRule (g : GlobalConfig κ ρ) (s : RedirectSettings κ ρ) :
    Except JsError (Option (Option ρ)) :=
  match s.redirectConfig, g.redirectConfig with
  | none, none => .ok none
  | some rc, _ =>
      .ok (some (if s.user.id ≠ "" then rc.authenticatedUser else rc.unauthenticatedUser))
  | none, some _ => .error .typeError

/-- processRedirect as inlined in withAuthUserTokenSSR.js (lines 185 to 190):
when findRedirectRule returns a truthy object it is returned as is, else the
legacy strategy runs. -/
def processRedirect (g : GlobalConfig κ ρ) (s : RedirectSettings κ ρ) :
    Except JsError (Option (RedirectOutcome ρ)) :=
  match findRedirectRule g s with
  | .error e => .error e
  | .ok (some rule) => .ok (some (.declRule rule))
  | .ok none => findLegacyRedirect g s

/-- findRedirectRule from the standalone redirects module (the copy that reads
the rule fields from the merged config): null when no declarative config
exists anywhere, else the rule for the auth state from whichever config the
merge selected. -/
def findRedirectRuleGen (g : GlobalConfig κ ρ) (s : RedirectSettings κ ρ) :
    Option (Option ρ) :=
  match s.redirectConfig, g.redirectConfig with
  | none, none => none
  | some rc, _ =>
      some (if s.user.id ≠ "" then rc.authenticatedUser else rc.unauthenticatedUser)
  | none, some rc =>
      some (if s.user.id ≠ "" then rc.authenticatedUser else rc.unauthenticatedUser)

/-- The value the generator findLegacyRedirect yields first: the JS or of the
merged unauthenticated URL and the merged authenticated URL, reporting whether
any legacy URL is configured. -/
def legacyYield (g : GlobalConfig κ ρ) (s : RedirectSettings κ ρ) : URLVal κ :=
  (s.authPageURL.orElse g.authPageURL).orElse (s.appPageURL.orElse g.appPageURL)

/-- processRedirect from the standalone redirects module: the generator first
yields whether any legacy URL is configured; when none is, the declarative
rule lookup decides, otherwise the generator resumes into the legacy branch
logic (which is textually findLegacyRedirect here). -/
def processRedirectGen (g : GlobalConfig κ ρ) (s : RedirectSettings κ ρ) :
    Except JsError (Option (RedirectOutcome ρ)) :=
  if (legacyYield g s).truthy = false then
    .ok ((findRedirectRuleGen g s).map RedirectOutcome.declRule)
  else
    findLegacyRedirect g s

/-- Truthiness of an optional JS string: absent and empty are falsy. -/
def strTruthy : Option String → Bool
  | none => false
  | some s => s != ""

/-- determineAuthUser (withAuthUserTokenSSR.js, lines 17 to 63), with the
collaborators passed explicitly: the two cookie reads are given as their
results, JSON.parse of the tokens cookie as parseTokens (yielding the idToken
and refreshToken fields), and verifyIdToken and createAuthUser as functions.
createAuthUser none models both the zero argument call and the call with an
absent serializedAuthUser; createAuthUser (some v) the call with
serializedAuthUser v. A falsy tokens cookie destructures the empty object, so
both token fields are absent. -/
def determineAuthUser (useToken : Bool)
    (tokensCookieVal authUserCookieVal : Option String)
    (parseTokens : String → Option String × Option String)
    (verifyIdToken : String → Option String → Except JsError AuthUser)
    (createAuthUser : Option String → AuthUser) : Except JsError AuthUser :=
  if useToken then
    let parsed := if strTruthy tokensCookieVal then
        parseTokens (tokensCookieVal.getD "")
      else (none, none)
    match parsed.1 with
    | some idToken =>
        if idToken ≠ "" then verifyIdToken idToken parsed.2
        else .ok (createAuthUser none)
    | none => .ok (createAuthUser none)
  else
    .ok (createAuthUser authUserCookieVal)

/-- A value returned by a getServerSideProps hook as the merge step reads it:
a possibly present props object (a list of key value pairs), the truthiness of
its notFound field, a possibly present redirect field, and the remaining keys
that the spread operator would preserve. The same shape describes the merged
page result. -/
structure ComposedProps (α β : Type) : Type where
  props : Option (List (String × α))
  notFound : Bool
  redirect : Option β
  rest : List (String × α)
deriving DecidableEq

/-- JS property assignment on an object represented as a key value list (keys
are unique in a JS object): overwrite the entry when the key exists, else
append it. -/
def setProp : List (String × α) → String → α → List (String × α)
  | [], k, v => [(k, v)]
  | p :: ps, k, v => if p.1 == k then (k, v) :: ps else p :: setProp ps k v

/-- JS property read on an object represented as a key value list. -/
def getProp : List (String × α) → String → Option α
  | [], _ => none
  | p :: ps, k => if p.1 == k then some p.2 else getProp ps k

/-- The result of the wrapped getServerSideProps: either the engine redirect
value returned directly, or the merged page result. -/
inductive SSRResult (α β ρ : Type) : Type where
  | engineRedirect : RedirectOutcome ρ → SSRResult α β ρ
  | page : ComposedProps α β → SSRResult α β ρ
deriving DecidableEq

/-- The call-site options of withAuthUserTokenSSR, in the order of the source
destructuring; the source defaults are RENDER, RENDER, null, null, null. -/
structure SSROptions (κ ρ : Type) : Type where
  whenAuthed : AuthAction
  whenUnauthed : AuthAction
  appPageURL : URLVal κ
  authPageURL : URLVal κ
  redirectConfig : Option (RedirectConfig ρ)

/-- The redirectSettings object the orchestrator builds for processRedirect
from its options, the context and the resolved user. -/
def mkRedirectSettings (opts : SSROptions κ ρ) (ctx : κ) (user : AuthUser) :
    RedirectSettings κ ρ :=
  ⟨opts.authPageURL, opts.whenUnauthed, opts.whenAuthed, opts.appPageURL,
    user, ctx, opts.redirectConfig⟩

/-- The page result the orchestrator prepares before consulting the hook: a
props object holding only the serialized user under the fixed key. -/
def initialReturnData (serialized : α) : ComposedProps α β :=
  ⟨some [("AuthUserSerialized", serialized)], false, none, []⟩

/-- withAuthUserTokenSSR (lines 216 to 272): resolve the user, serialize it,
run the redirect engine and return a non-null outcome directly; otherwise run
the hook (passing it the context and, as the source does through
ctx.AuthUser, the user) and merge: a truthy props object gets the serialized
user injected under the fixed key, else a truthy notFound or redirect result
is returned verbatim, else the prepared minimal result stands. The cookie
crypto options passed through to getCookie are absorbed into the cookie read
results. -/
def withAuthUserTokenSSR (g : GlobalConfig κ ρ) (opts : SSROptions κ ρ)
    (useToken : Bool) (tokensCookieVal authUserCookieVal : Option String)
    (parseTokens : String → Option String × Option String)
    (verifyIdToken : String → Option String → Except JsError AuthUser)
    (createAuthUser : Option String → AuthUser)
    (serialize : AuthUser → α)
    (getServerSidePropsFunc : Option (κ → AuthUser → Option (ComposedProps α β)))
    (ctx : κ) : Except JsError (SSRResult α β ρ) := do
  let user ← determineAuthUser useToken tokensCookieVal authUserCookieVal
    parseTokens verifyIdToken createAuthUser
  let serialized := serialize user
  match ← processRedirect g (mkRedirectSettings opts ctx user) with
  | some rd => return SSRResult.engineRedirect rd
  | none =>
    match getServerSidePropsFunc with
    | none => return SSRResult.page (initialReturnData serialized)
    | some f =>
      let composed := (f ctx user).getD ⟨none, false, none, []⟩
      match composed.props with
      | some ps =>
          return SSRResult.page ⟨some (setProp ps "AuthUserSerialized" serialized),
            composed.notFound, composed.redirect, composed.rest⟩
      | none =>
          if composed.notFound || composed.redirect.isSome then
            return SSRResult.page composed
          else
            return SSRResult.page (initialReturnData serialized)

/-- A global configuration with nothing set, for concrete evaluations. -/
def emptyGlobal : GlobalConfig Unit String :=
  ⟨URLVal.null, URLVal.null, none⟩

/-- Call-site options at the source defaults. -/
def defaultOpts : SSROptions Unit String :=
  ⟨AuthAction.render, AuthAction.render, URLVal.null, URLVal.null, none⟩

/-- A createAuthUser collaborator stub: anonymous with no input, otherwise the
id is the given serialized value. -/
def createStub : Option String → AuthUser
  | none => ⟨""⟩
  | some s => ⟨s⟩

/-- A serializer collaborator stub. -/
def serializeStub : AuthUser → String := fun _ => "SESSVAL"

/-- A verifier collaborator stub that always yields a fixed identified user. -/
def verifyStub : String → Option String → Except JsError AuthUser :=
  fun _ _ => .ok ⟨"uid"⟩

/-- A token parser stub extracting no fields. -/
def parseStubEmpty : String → Option String × Option String :=
  fun _ => (none, none)

/-- A token parser stub extracting a fixed token pair. -/
def parseStubTok : String → Option String × Option String :=
  fun _ => (some "tok", some "rt")

/-- Claim C1 counterexample: in the generator-based processRedirect of the
redirects module, a present (empty) call-site declarative redirectConfig does
not supersede the legacy strategy — with a configured legacy login URL, an
anonymous session and the redirect-to-login flag, the engine consults the
legacy URLs and action flags and returns the constructed legacy directive,
not the declarative rule (which here is absent) that the claim requires. -/
theorem C1_counterexample :
    processRedirectGen (⟨URLVal.null, URLVal.null, none⟩ : GlobalConfig Unit String)
      ⟨URLVal.str "/login", AuthAction.redirectToLogin, AuthAction.render,
        URLVal.null, ⟨""⟩, (), some ⟨none, none⟩⟩
      = .ok (some (.legacyDir ⟨"/login", false⟩)) ∧
    (Except.ok (some (RedirectOutcome.legacyDir ⟨"/login", false⟩))
        : Except JsError (Option (RedirectOutcome String)))
      ≠ .ok (some (.declRule none)) :=
  ⟨rfl, by simp⟩

/-- Claim C1 amended: the inline processRedirect of withAuthUserTokenSSR.js,
given a call-site declarative redirectConfig object (even an empty one),
returns exactly the object whose redirect field is the declarative rule
matching the session auth state (authenticatedUser for a non-empty id,
unauthenticatedUser otherwise), including an absent rule, for every global
config and every setting of the legacy URLs and action flags; the
generator-based processRedirect of the redirects module does the same only
when no legacy URL is configured anywhere, and then also when the declarative
config is only the global default. -/
theorem C1_amended_declarative_rule :
    (∀ (g : GlobalConfig κ ρ) (s : RedirectSettings κ ρ) (cfg : RedirectConfig ρ),
      s.redirectConfig = some cfg →
      processRedirect g s = .ok (some (.declRule
        (if s.user.id ≠ "" then cfg.authenticatedUser else cfg.unauthenticatedUser))))
    ∧ (∀ (g : GlobalConfig κ ρ) (s : RedirectSettings κ ρ) (cfg : RedirectConfig ρ),
      (legacyYield g s).truthy = false → s.redirectConfig = some cfg →
      processRedirectGen g s = .ok (some (.declRule
        (if s.user.id ≠ "" then cfg.authenticatedUser else cfg.unauthenticatedUser))))
    ∧ (∀ (g : GlobalConfig κ ρ) (s : RedirectSettings κ ρ) (cfg : RedirectConfig ρ),
      (legacyYield g s).truthy = false → s.redirectConfig = none →
      g.redirectConfig = some cfg →
      processRedirectGen g s = .ok (some (.declRule
        (if s.user.id ≠ "" then cfg.authenticatedUser else cfg.unauthenticatedUser)))) := by
  refine ⟨?_, ?_, ?_⟩
  · intro g s cfg h
    unfold processRedirect findRedirectRule
    rw [h]
  · intro g s cfg hy h
    unfold processRedirectGen
    rw [if_pos hy]
    unfold findRedirectRuleGen
    rw [h]
    rfl
  · intro g s cfg hy h1 h2
    unfold processRedirectGen
    rw [if_pos hy]
    unfold findRedirectRuleGen
    rw [h1, h2]
    rfl

/-- Claim C1 witness: the inline engine ignores a configured legacy login URL
and the redirect-to-login flag when an empty call-site declarative config is
given; the generator engine, with no legacy URL configured, returns the
call-site rule for an identified session and the global-default rule for an
anonymous one. -/
theorem C1_witness :
    (⟨URLVal.str "/login", AuthAction.redirectToLogin, AuthAction.render,
      URLVal.null, ⟨""⟩, (), some ⟨none, none⟩⟩ : RedirectSettings Unit String).redirectConfig
        = some ⟨none, none⟩ ∧
    processRedirect (⟨URLVal.null, URLVal.null, none⟩ : GlobalConfig Unit String)
      ⟨URLVal.str "/login", AuthAction.redirectToLogin, AuthAction.render,
        URLVal.null, ⟨""⟩, (), some ⟨none, none⟩⟩
      = .ok (some (.declRule
          (if (⟨""⟩ : AuthUser).id ≠ "" then (⟨none, none⟩ : RedirectConfig String).authenticatedUser
           else (⟨none, none⟩ : RedirectConfig String).unauthenticatedUser))) ∧
    (legacyYield (⟨URLVal.null, URLVal.null, none⟩ : GlobalConfig Unit String)
      ⟨URLVal.null, AuthAction.redirectToLogin, AuthAction.render, URLVal.null,
        ⟨"uid"⟩, (), some ⟨some "/app", none⟩⟩).truthy = false ∧
    processRedirectGen (⟨URLVal.null, URLVal.null, none⟩ : GlobalConfig Unit String)
      ⟨URLVal.null, AuthAction.redirectToLogin, AuthAction.render, URLVal.null,
        ⟨"uid"⟩, (), some ⟨some "/app", none⟩⟩
      = .ok (some (.declRule
          (if (⟨"uid"⟩ : AuthUser).id ≠ "" then (⟨some "/app", none⟩ : RedirectConfig String).authenticatedUser
           else (⟨some "/app", none⟩ : RedirectConfig String).unauthenticatedUser))) ∧
    processRedirectGen (⟨URLVal.null, URLVal.null,
        some ⟨none, some "/login"⟩⟩ : GlobalConfig Unit String)
      ⟨URLVal.null, AuthAction.render, AuthAction.render, URLVal.null,
        ⟨""⟩, (), none⟩
      = .ok (some (.declRule
          (if (⟨""⟩ : AuthUser).id ≠ "" then (⟨none, some "/login"⟩ : RedirectConfig String).authenticatedUser
           else (⟨none, some "/login"⟩ : RedirectConfig String).unauthenticatedUser))) :=
  ⟨rfl,
    C1_amended_declarative_rule.1
      (⟨URLVal.null, URLVal.null, none⟩ : GlobalConfig Unit String)
      ⟨URLVal.str "/login", AuthAction.redirectToLogin, AuthAction.render,
        URLVal.null, ⟨""⟩, (), some ⟨none, none⟩⟩
      ⟨none, none⟩ rfl,
    rfl,
    C1_amended_declarative_rule.2.1
      (⟨URLVal.null, URLVal.null, none⟩ : GlobalConfig Unit String)
      ⟨URLVal.null, AuthAction.redirectToLogin, AuthAction.render, URLVal.null,
        ⟨"uid"⟩, (), some ⟨some "/app", none⟩⟩
      ⟨some "/app", none⟩ rfl rfl,
    C1_amended_declarative_rule.2.2
      (⟨URLVal.null, URLVal.null, some ⟨none, some "/login"⟩⟩ : GlobalConfig Unit String)
      ⟨URLVal.null, AuthAction.render, AuthAction.render, URLVal.null,
        ⟨""⟩, (), none⟩
      ⟨none, some "/login"⟩ rfl rfl rfl⟩

/-- The JS or of two falsy URL values is falsy. -/
theorem URLVal.orElse_truthy_false {a b : URLVal κ} (ha : a.truthy = false)
    (hb : b.truthy = false) : (a.orElse b).truthy = false := by
  unfold URLVal.orElse
  rw [ha]
  simpa using hb

/-- Claim C2: when both legacy URLs are unset anywhere and no declarative
config exists anywhere, the generator-based processRedirect of the redirects
module returns null for every session and every setting of the action flags:
the first yield reports no usable legacy URL, so the branch logic never
runs. -/
theorem C2_legacy_inert_short_circuit (g : GlobalConfig κ ρ)
    (s : RedirectSettings κ ρ)
    (h1 : (s.authPageURL.orElse g.authPageURL).truthy = false)
    (h2 : (s.appPageURL.orElse g.appPageURL).truthy = false)
    (h3 : s.redirectConfig = none) (h4 : g.redirectConfig = none) :
    processRedirectGen g s = .ok none := by
  unfold processRedirectGen legacyYield
  rw [if_pos (URLVal.orElse_truthy_false h1 h2)]
  unfold findRedirectRuleGen
  rw [h3, h4]
  rfl

/-- Claim C2 witness: with nothing configured, both the anonymous session with
redirect-to-login set and the action flags at their redirecting values still
produce null. -/
theorem C2_witness :
    ((URLVal.null : URLVal Unit).orElse URLVal.null).truthy = false ∧
    ((URLVal.null : URLVal Unit).orElse URLVal.null).truthy = false ∧
    (⟨URLVal.null, AuthAction.redirectToLogin, AuthAction.redirectToApp,
      URLVal.null, ⟨""⟩, (), none⟩ : RedirectSettings Unit String).redirectConfig = none ∧
    (⟨URLVal.null, URLVal.null, none⟩ : GlobalConfig Unit String).redirectConfig = none ∧
    processRedirectGen (⟨URLVal.null, URLVal.null, none⟩ : GlobalConfig Unit String)
      ⟨URLVal.null, AuthAction.redirectToLogin, AuthAction.redirectToApp,
        URLVal.null, ⟨""⟩, (), none⟩ = .ok none :=
  ⟨rfl, rfl, rfl, rfl,
    C2_legacy_inert_short_circuit _ _ rfl rfl rfl rfl⟩

/-- Claim C3: for an anonymous session with whenUnauthed set to
REDIRECT_TO_LOGIN and no declarative config anywhere, whenever the merged
authPageURL resolves to the empty string (which covers it being unset, an
empty string, or a function returning empty), processRedirect throws a
configuration error — it neither returns null nor builds a directive with an
empty destination. -/
theorem C3_missing_auth_url_is_config_error (g : GlobalConfig κ ρ)
    (s : RedirectSettings κ ρ)
    (hanon : s.user.id = "")
    (hflag : s.whenUnauthed = AuthAction.redirectToLogin)
    (h3 : s.redirectConfig = none) (h4 : g.redirectConfig = none)
    (hurl : (s.authPageURL.orElse g.authPageURL).resolve s.ctx s.user = "") :
    ∃ msg, processRedirect g s = .error (.configError msg) := by
  unfold processRedirect findRedirectRule
  rw [h3, h4]
  unfold findLegacyRedirect
  rw [if_pos ⟨hanon, hflag⟩]
  unfold redirectUnauthenticatedUser
  by_cases ht : (s.authPageURL.orElse g.authPageURL).truthy = false
  · rw [if_pos ht]
    exact ⟨_, rfl⟩
  · rw [if_neg ht, if_pos hurl]
    exact ⟨_, rfl⟩

/-- Claim C3 witness: anonymous session, redirect-to-login flag, no URLs and
no declarative config anywhere yields a configuration error. -/
theorem C3_witness :
    (⟨URLVal.null, AuthAction.redirectToLogin, AuthAction.render, URLVal.null,
      ⟨""⟩, (), none⟩ : RedirectSettings Unit String).user.id = "" ∧
    (⟨URLVal.null, AuthAction.redirectToLogin, AuthAction.render, URLVal.null,
      ⟨""⟩, (), none⟩ : RedirectSettings Unit String).whenUnauthed = AuthAction.redirectToLogin ∧
    ∃ msg, processRedirect (⟨URLVal.null, URLVal.null, none⟩ : GlobalConfig Unit String)
      ⟨URLVal.null, AuthAction.redirectToLogin, AuthAction.render, URLVal.null,
        ⟨""⟩, (), none⟩ = .error (.configError msg) :=
  ⟨rfl, rfl, C3_missing_auth_url_is_config_error _ _ rfl rfl rfl rfl rfl⟩

/-- Claim C4 evaluation: with no call-site redirectConfig and a global
declarative config present, the inlined findRedirectRule dereferences the
null call-site redirectConfig, so processRedirect raises a TypeError instead
of selecting the global rule for the auth state. -/
theorem C4_global_only_config_raises_type_error :
    processRedirect (⟨URLVal.null, URLVal.null,
        some ⟨some "/app", some "/login"⟩⟩ : GlobalConfig Unit String)
      ⟨URLVal.null, AuthAction.render, AuthAction.render, URLVal.null,
        ⟨"uid"⟩, (), none⟩ = .error .typeError := rfl

/-- Claim C5 counterexample: a hook result carrying both a truthy props
object and a redirect key is not returned verbatim — the merge step checks
props first and injects the serialized session into it, keeping the redirect
key but altering the result. -/
theorem C5_counterexample :
    withAuthUserTokenSSR emptyGlobal defaultOpts false none none parseStubEmpty
        verifyStub createStub serializeStub
        (some (fun _ _ => some ⟨some [("a", "1")], false, some "/x", []⟩)) ()
      = .ok (SSRResult.page ⟨some [("a", "1"), ("AuthUserSerialized", "SESSVAL")],
          false, some "/x", []⟩) ∧
    (Except.ok (SSRResult.page ⟨some [("a", "1"), ("AuthUserSerialized", "SESSVAL")],
        false, some "/x", []⟩) : Except JsError (SSRResult String String String))
      ≠ .ok (SSRResult.page ⟨some [("a", "1")], false, some "/x", []⟩) :=
  ⟨rfl, by simp⟩

/-- Claim C5 amended: a hook result carrying a truthy notFound or redirect
key and no truthy props value is returned verbatim and unmodified; when a
truthy props object is also present, the props branch wins and the serialized
session is injected instead. -/
theorem C5_amended_route_result_verbatim (g : GlobalConfig κ ρ)
    (opts : SSROptions κ ρ) (useToken : Bool) (tcv acv : Option String)
    (pt : String → Option String × Option String)
    (vt : String → Option String → Except JsError AuthUser)
    (ca : Option String → AuthUser) (ser : AuthUser → α)
    (f : κ → AuthUser → Option (ComposedProps α β)) (ctx : κ)
    (user : AuthUser) (composed : ComposedProps α β)
    (huser : determineAuthUser useToken tcv acv pt vt ca = .ok user)
    (hengine : processRedirect g (mkRedirectSettings opts ctx user) = .ok none)
    (hres : f ctx user = some composed)
    (hnoprops : composed.props = none)
    (hroute : composed.notFound = true ∨ composed.redirect.isSome = true) :
    withAuthUserTokenSSR g opts useToken tcv acv pt vt ca ser (some f) ctx
      = .ok (SSRResult.page composed) := by
  unfold withAuthUserTokenSSR
  rw [huser]
  simp only [bind, Except.bind]
  rw [hengine]
  simp only [Except.bind]
  rw [hres]
  simp only [Option.getD]
  rw [hnoprops]
  have hcond : (composed.notFound || composed.redirect.isSome) = true := by
    rcases hroute with h | h <;> simp [h]
  simp only [hcond, if_true]
  rfl

/-- Claim C5 witness: a pure notFound hook result comes back verbatim. -/
theorem C5_witness :
    determineAuthUser false none none parseStubEmpty verifyStub createStub
      = .ok ⟨""⟩ ∧
    processRedirect emptyGlobal (mkRedirectSettings defaultOpts () ⟨""⟩) = .ok none ∧
    (⟨none, true, none, []⟩ : ComposedProps String String).props = none ∧
    (⟨none, true, none, []⟩ : ComposedProps String String).notFound = true ∧
    withAuthUserTokenSSR emptyGlobal defaultOpts false none none parseStubEmpty
        verifyStub createStub serializeStub
        (some (fun _ _ => some (⟨none, true, none, []⟩ : ComposedProps String String))) ()
      = .ok (SSRResult.page ⟨none, true, none, []⟩) :=
  ⟨rfl, rfl, rfl, rfl,
    C5_amended_route_result_verbatim _ _ _ _ _ _ _ _ _ _ _ _ _
      rfl rfl rfl rfl (Or.inl rfl)⟩

/-- Claim C6: whenever the engine produces a non-null value, the orchestrator
returns it directly, for every hook argument — so the caller supplied render
hook is never consulted, and it can only run when the engine returned null. -/
theorem C6_engine_redirect_preempts_hook (g : GlobalConfig κ ρ)
    (opts : SSROptions κ ρ) (useToken : Bool) (tcv acv : Option String)
    (pt : String → Option String × Option String)
    (vt : String → Option String → Except JsError AuthUser)
    (ca : Option String → AuthUser) (ser : AuthUser → α) (ctx : κ)
    (user : AuthUser) (rd : RedirectOutcome ρ)
    (huser : determineAuthUser useToken tcv acv pt vt ca = .ok user)
    (hengine : processRedirect g (mkRedirectSettings opts ctx user) = .ok (some rd)) :
    ∀ hookOpt : Option (κ → AuthUser → Option (ComposedProps α β)),
      withAuthUserTokenSSR g opts useToken tcv acv pt vt ca ser hookOpt ctx
        = .ok (SSRResult.engineRedirect rd) := by
  intro hookOpt
  unfold withAuthUserTokenSSR
  rw [huser]
  simp only [bind, Except.bind]
  rw [hengine]
  rfl

/-- Claim C6 witness: with an engine redirect pending, a hook that would
return its own props is ignored and the legacy directive is returned. -/
theorem C6_witness :
    determineAuthUser false none none parseStubEmpty verifyStub createStub
      = .ok ⟨""⟩ ∧
    processRedirect emptyGlobal
      (mkRedirectSettings ⟨AuthAction.render, AuthAction.redirectToLogin,
        URLVal.null, URLVal.str "/login", none⟩ () ⟨""⟩)
      = .ok (some (.legacyDir ⟨"/login", false⟩)) ∧
    withAuthUserTokenSSR emptyGlobal
      ⟨AuthAction.render, AuthAction.redirectToLogin, URLVal.null,
        URLVal.str "/login", none⟩
      false none none parseStubEmpty verifyStub createStub serializeStub
      (some (fun _ _ => some (⟨some [("boom", "1")], false, none, []⟩ : ComposedProps String String))) ()
      = .ok (SSRResult.engineRedirect (.legacyDir ⟨"/login", false⟩)) :=
  ⟨rfl, rfl,
    C6_engine_redirect_preempts_hook emptyGlobal
      ⟨AuthAction.render, AuthAction.redirectToLogin, URLVal.null,
        URLVal.str "/login", none⟩
      false none none parseStubEmpty verifyStub createStub serializeStub ()
      ⟨""⟩ (.legacyDir ⟨"/login", false⟩) rfl rfl _⟩

/-- Claim C7: when the hook result carries a truthy props object, the
orchestrator returns that result with the serialized session injected into the
props object under the fixed key AuthUserSerialized (all other keys of the
result preserved); when no hook is provided, or the hook returns nothing, the
result is exactly the minimal props object holding only the serialized
session under that key. -/
theorem C7_session_injection (g : GlobalConfig κ ρ) (opts : SSROptions κ ρ)
    (useToken : Bool) (tcv acv : Option String)
    (pt : String → Option String × Option String)
    (vt : String → Option String → Except JsError AuthUser)
    (ca : Option String → AuthUser) (ser : AuthUser → α) (ctx : κ)
    (user : AuthUser)
    (huser : determineAuthUser useToken tcv acv pt vt ca = .ok user)
    (hengine : processRedirect g (mkRedirectSettings opts ctx user) = .ok none) :
    (∀ (f : κ → AuthUser → Option (ComposedProps α β))
        (composed : ComposedProps α β) (ps : List (String × α)),
      f ctx user = some composed → composed.props = some ps →
      withAuthUserTokenSSR g opts useToken tcv acv pt vt ca ser (some f) ctx
        = .ok (SSRResult.page ⟨some (setProp ps "AuthUserSerialized" (ser user)),
            composed.notFound, composed.redirect, composed.rest⟩))
    ∧ withAuthUserTokenSSR (β := β) g opts useToken tcv acv pt vt ca ser none ctx
        = .ok (SSRResult.page (initialReturnData (ser user)))
    ∧ (∀ f : κ → AuthUser → Option (ComposedProps α β), f ctx user = none →
      withAuthUserTokenSSR g opts useToken tcv acv pt vt ca ser (some f) ctx
        = .ok (SSRResult.page (initialReturnData (ser user)))) := by
  refine ⟨?_, ?_, ?_⟩
  · intro f composed ps hres hprops
    unfold withAuthUserTokenSSR
    rw [huser]
    simp only [bind, Except.bind]
    rw [hengine, hres]
    simp only [Option.getD_some]
    rw [hprops]
    rfl
  · unfold withAuthUserTokenSSR
    rw [huser]
    simp only [bind, Except.bind]
    rw [hengine]
    rfl
  · intro f hres
    unfold withAuthUserTokenSSR
    rw [huser]
    simp only [bind, Except.bind]
    rw [hengine, hres]
    rfl

/-- Claim C7 witness: a hook returning one extra prop gets the serialized
session appended to its props; with no hook, only the serialized session is
returned. -/
theorem C7_witness :
    determineAuthUser false none none parseStubEmpty verifyStub createStub
      = .ok ⟨""⟩ ∧
    processRedirect emptyGlobal (mkRedirectSettings defaultOpts () ⟨""⟩) = .ok none ∧
    withAuthUserTokenSSR emptyGlobal defaultOpts false none none parseStubEmpty
        verifyStub createStub serializeStub
        (some (fun _ _ => some (⟨some [("a", "1")], false, none, []⟩ : ComposedProps String String))) ()
      = .ok (SSRResult.page ⟨some [("a", "1"), ("AuthUserSerialized", "SESSVAL")],
          false, none, []⟩) ∧
    withAuthUserTokenSSR (β := String) emptyGlobal defaultOpts false none none
        parseStubEmpty verifyStub createStub serializeStub none ()
      = .ok (SSRResult.page ⟨some [("AuthUserSerialized", "SESSVAL")], false, none, []⟩) :=
  ⟨rfl, rfl,
    (C7_session_injection emptyGlobal defaultOpts false none none parseStubEmpty
      verifyStub createStub serializeStub () ⟨""⟩ rfl rfl).1
      (fun _ _ => some ⟨some [("a", "1")], false, none, []⟩)
      ⟨some [("a", "1")], false, none, []⟩ [("a", "1")] rfl rfl,
    (C7_session_injection emptyGlobal defaultOpts false none none parseStubEmpty
      verifyStub createStub serializeStub () ⟨""⟩ rfl rfl).2.1⟩

/-- A successful call of redirectUnauthenticatedUser yields a temporary
directive with a non-empty destination. -/
theorem redirectUnauthenticatedUser_ok_inv {u : URLVal κ} {c : κ} {au : AuthUser}
    {d : RedirectDirective}
    (h : redirectUnauthenticatedUser u c au
      = (.ok (.legacyDir d) : Except JsError (RedirectOutcome ρ))) :
    d.permanent = false ∧ d.destination ≠ "" := by
  unfold redirectUnauthenticatedUser at h
  split at h
  · exact absurd h (by simp)
  · split at h
    · exact absurd h (by simp)
    · rename_i hres
      simp only [Except.ok.injEq, RedirectOutcome.legacyDir.injEq] at h
      rw [← h]
      exact ⟨rfl, hres⟩

/-- A successful call of redirectAuthenticatedUser yields a temporary
directive with a non-empty destination. -/
theorem redirectAuthenticatedUser_ok_inv {u : URLVal κ} {c : κ} {au : AuthUser}
    {d : RedirectDirective}
    (h : redirectAuthenticatedUser u c au
      = (.ok (.legacyDir d) : Except JsError (RedirectOutcome ρ))) :
    d.permanent = false ∧ d.destination ≠ "" := by
  unfold redirectAuthenticatedUser at h
  split at h
  · exact absurd h (by simp)
  · split at h
    · exact absurd h (by simp)
    · rename_i hres
      simp only [Except.ok.injEq, RedirectOutcome.legacyDir.injEq] at h
      rw [← h]
      exact ⟨rfl, hres⟩

/-- Any legacy directive produced by findLegacyRedirect is temporary and has a
non-empty destination. -/
theorem findLegacyRedirect_ok_inv {g : GlobalConfig κ ρ} {s : RedirectSettings κ ρ}
    {d : RedirectDirective}
    (h : findLegacyRedirect g s = .ok (some (.legacyDir d))) :
    d.permanent = false ∧ d.destination ≠ "" := by
  unfold findLegacyRedirect at h
  split at h
  · cases hr : redirectUnauthenticatedUser (ρ := ρ)
      (s.authPageURL.orElse g.authPageURL) s.ctx s.user with
    | error e => rw [hr] at h; exact absurd h (by simp [Except.map])
    | ok v =>
        rw [hr] at h
        simp only [Except.map, Except.ok.injEq, Option.some.injEq] at h
        exact redirectUnauthenticatedUser_ok_inv (h ▸ hr)
  · split at h
    · cases hr : redirectAuthenticatedUser (ρ := ρ)
        (s.appPageURL.orElse g.appPageURL) s.ctx s.user with
      | error e => rw [hr] at h; exact absurd h (by simp [Except.map])
      | ok v =>
          rw [hr] at h
          simp only [Except.map, Except.ok.injEq, Option.some.injEq] at h
          exact redirectAuthenticatedUser_ok_inv (h ▸ hr)
    · exact absurd h (by simp)

/-- Claim C8: every redirect directive constructed by the engine — in the
processRedirect inlined in withAuthUserTokenSSR.js and in the generator based
processRedirect of the redirects module — has permanent set to false and a
non-empty destination string. -/
theorem C8_directives_temporary_and_nonempty :
    (∀ (g : GlobalConfig κ ρ) (s : RedirectSettings κ ρ) (d : RedirectDirective),
      processRedirect g s = .ok (some (.legacyDir d)) →
      d.permanent = false ∧ d.destination ≠ "")
    ∧ (∀ (g : GlobalConfig κ ρ) (s : RedirectSettings κ ρ) (d : RedirectDirective),
      processRedirectGen g s = .ok (some (.legacyDir d)) →
      d.permanent = false ∧ d.destination ≠ "") := by
  constructor
  · intro g s d h
    unfold processRedirect at h
    cases hfr : findRedirectRule g s with
    | error e => rw [hfr] at h; exact absurd h (by simp)
    | ok v =>
        rw [hfr] at h
        cases v with
        | some rule => exact absurd h (by simp)
        | none => exact findLegacyRedirect_ok_inv h
  · intro g s d h
    unfold processRedirectGen at h
    split at h
    · cases hfr : findRedirectRuleGen g s with
      | none => rw [hfr] at h; exact absurd h (by simp)
      | some rule => rw [hfr] at h; exact absurd h (by simp)
    · exact findLegacyRedirect_ok_inv h

/-- Claim C8 witness: the directive built for an anonymous session sent to the
login page is temporary with a non-empty destination. -/
theorem C8_witness :
    processRedirect emptyGlobal ⟨URLVal.str "/login", AuthAction.redirectToLogin,
        AuthAction.render, URLVal.null, ⟨""⟩, (), none⟩
      = .ok (some (.legacyDir ⟨"/login", false⟩)) ∧
    (⟨"/login", false⟩ : RedirectDirective).permanent = false ∧
    (⟨"/login", false⟩ : RedirectDirective).destination ≠ "" :=
  ⟨rfl, C8_directives_temporary_and_nonempty.1 emptyGlobal
    ⟨URLVal.str "/login", AuthAction.redirectToLogin, AuthAction.render,
      URLVal.null, ⟨""⟩, (), none⟩ ⟨"/login", false⟩ rfl⟩

/-- Claim C9 counterexample: in token mode with the tokens cookie present but
parsing to no idToken, the resolver does not delegate to the verifier — here a
verifier that always returns an identified user — and instead returns the
anonymous user, so the verifier result is not the resolver result. -/
theorem C9_counterexample :
    determineAuthUser true (some "X") none parseStubEmpty verifyStub createStub
      = .ok ⟨""⟩ ∧
    (Except.ok (⟨""⟩ : AuthUser) : Except JsError AuthUser) ≠ verifyStub "X" none :=
  ⟨rfl, by simp [verifyStub]⟩

/-- Claim C9 amended: in token mode the resolver returns the anonymous session
(the zero argument createAuthUser) when the tokens cookie is absent or empty,
and also when the cookie is present but its parsed idToken is absent or
empty; only when the parsed idToken is a non-empty string does it delegate to
verifyIdToken with the idToken and the optional refreshToken, and then the
verifier result is the resolver result. -/
theorem C9_amended_token_mode (tcv acv : Option String)
    (pt : String → Option String × Option String)
    (vt : String → Option String → Except JsError AuthUser)
    (ca : Option String → AuthUser)
    (hanon : (ca none).id = "") :
    (strTruthy tcv = false →
      determineAuthUser true tcv acv pt vt ca = .ok (ca none) ∧ (ca none).id = "")
    ∧ (∀ s t rt, tcv = some s → strTruthy tcv = true → pt s = (some t, rt) →
      t ≠ "" → determineAuthUser true tcv acv pt vt ca = vt t rt)
    ∧ (∀ s, tcv = some s → strTruthy tcv = true → strTruthy (pt s).1 = false →
      determineAuthUser true tcv acv pt vt ca = .ok (ca none) ∧ (ca none).id = "") := by
  refine ⟨?_, ?_, ?_⟩
  · intro hcv
    unfold determineAuthUser
    rw [if_pos rfl, if_neg (by simp [hcv])]
    exact ⟨rfl, hanon⟩
  · intro s t rt hs hcv hp ht
    subst hs
    unfold determineAuthUser
    rw [if_pos rfl, if_pos hcv]
    simp only [Option.getD_some, hp]
    rw [if_pos ht]
  · intro s hs hcv hp
    subst hs
    unfold determineAuthUser
    rw [if_pos rfl, if_pos hcv]
    simp only [Option.getD_some]
    cases hp1 : (pt s).1 with
    | none => exact ⟨rfl, hanon⟩
    | some t =>
        rw [hp1] at hp
        have ht : t = "" := by simpa [strTruthy] using hp
        subst ht
        refine ⟨?_, hanon⟩
        show (if ("" : String) ≠ "" then vt "" (pt s).2 else Except.ok (ca none))
          = Except.ok (ca none)
        rw [if_neg (by simp)]

/-- Claim C9 witness: with no cookie the resolver is anonymous, and with a
cookie parsing to a non-empty token it returns exactly the verifier result. -/
theorem C9_witness :
    strTruthy (none : Option String) = false ∧
    determineAuthUser true none none parseStubTok verifyStub createStub
      = .ok ⟨""⟩ ∧
    parseStubTok "C" = (some "tok", some "rt") ∧
    determineAuthUser true (some "C") none parseStubTok verifyStub createStub
      = verifyStub "tok" (some "rt") :=
  ⟨rfl,
    ((C9_amended_token_mode none none parseStubTok verifyStub createStub rfl).1 rfl).1,
    rfl,
    (C9_amended_token_mode (some "C") none parseStubTok verifyStub createStub rfl).2.1
      "C" "tok" (some "rt") rfl rfl rfl (by decide)⟩

/-- Setting a property and reading it back yields the written value. -/
theorem getProp_setProp (ps : List (String × α)) (k : String) (v : α) :
    getProp (setProp ps k v) k = some v := by
  induction ps with
  | nil => simp [setProp, getProp]
  | cons p t ih =>
      by_cases hp : (p.1 == k) = true
      · simp [setProp, getProp, hp]
      · simp only [setProp, getProp, hp, if_false, Bool.false_eq_true, if_neg]
        exact ih

/-- Claim C10: a hook result that is an object carrying none of the keys
props, notFound and redirect (whatever other keys it carries) is discarded
silently and the minimal session-bearing result is returned; and when the hook
props already contain the fixed key AuthUserSerialized, the injected
serialized session overwrites the hook-provided value. -/
theorem C10_unknown_result_discarded_and_overwrite (g : GlobalConfig κ ρ)
    (opts : SSROptions κ ρ) (useToken : Bool) (tcv acv : Option String)
    (pt : String → Option String × Option String)
    (vt : String → Option String → Except JsError AuthUser)
    (ca : Option String → AuthUser) (ser : AuthUser → α) (ctx : κ)
    (user : AuthUser)
    (huser : determineAuthUser useToken tcv acv pt vt ca = .ok user)
    (hengine : processRedirect g (mkRedirectSettings opts ctx user) = .ok none) :
    (∀ (f : κ → AuthUser → Option (ComposedProps α β))
        (composed : ComposedProps α β),
      f ctx user = some composed → composed.props = none →
      composed.notFound = false → composed.redirect = none →
      composed.rest ≠ [] →
      withAuthUserTokenSSR g opts useToken tcv acv pt vt ca ser (some f) ctx
        = .ok (SSRResult.page (initialReturnData (ser user))))
    ∧ (∀ (f : κ → AuthUser → Option (ComposedProps α β))
        (composed : ComposedProps α β) (ps : List (String × α)),
      f ctx user = some composed → composed.props = some ps →
      (getProp ps "AuthUserSerialized").isSome = true →
      getProp (setProp ps "AuthUserSerialized" (ser user)) "AuthUserSerialized"
          = some (ser user)
        ∧ withAuthUserTokenSSR g opts useToken tcv acv pt vt ca ser (some f) ctx
          = .ok (SSRResult.page ⟨some (setProp ps "AuthUserSerialized" (ser user)),
              composed.notFound, composed.redirect, composed.rest⟩)) := by
  constructor
  · intro f composed hres hprops hnf hrd _
    unfold withAuthUserTokenSSR
    rw [huser]
    simp only [bind, Except.bind]
    rw [hengine, hres]
    simp only [Option.getD_some]
    rw [hprops, hnf, hrd]
    rfl
  · intro f composed ps hres hprops _
    refine ⟨getProp_setProp ps "AuthUserSerialized" (ser user), ?_⟩
    unfold withAuthUserTokenSSR
    rw [huser]
    simp only [bind, Except.bind]
    rw [hengine, hres]
    simp only [Option.getD_some]
    rw [hprops]
    rfl

/-- Claim C10 witness: a hook result holding only a foreign key is discarded,
and an existing AuthUserSerialized prop is overwritten by the serialized
session. -/
theorem C10_witness :
    withAuthUserTokenSSR emptyGlobal defaultOpts false none none parseStubEmpty
        verifyStub createStub serializeStub
        (some (fun _ _ => some (⟨none, false, none, [("foo", "1")]⟩ : ComposedProps String String))) ()
      = .ok (SSRResult.page ⟨some [("AuthUserSerialized", "SESSVAL")], false, none, []⟩) ∧
    getProp (setProp [("AuthUserSerialized", "OLD")] "AuthUserSerialized" "SESSVAL")
        "AuthUserSerialized" = some "SESSVAL" ∧
    withAuthUserTokenSSR emptyGlobal defaultOpts false none none parseStubEmpty
        verifyStub createStub serializeStub
        (some (fun _ _ => some (⟨some [("AuthUserSerialized", "OLD")], false, none, []⟩ : ComposedProps String String))) ()
      = .ok (SSRResult.page ⟨some [("AuthUserSerialized", "SESSVAL")], false, none, []⟩) :=
  ⟨(C10_unknown_result_discarded_and_overwrite emptyGlobal defaultOpts false
      none none parseStubEmpty verifyStub createStub serializeStub () ⟨""⟩
      rfl rfl).1
      (fun _ _ => some (⟨none, false, none, [("foo", "1")]⟩ : ComposedProps String String))
      (⟨none, false, none, [("foo", "1")]⟩ : ComposedProps String String)
      rfl rfl rfl rfl (by simp),
    ((C10_unknown_result_discarded_and_overwrite emptyGlobal defaultOpts false
      none none parseStubEmpty verifyStub createStub serializeStub () ⟨""⟩
      rfl rfl).2
      (fun _ _ => some (⟨some [("AuthUserSerialized", "OLD")], false, none, []⟩ : ComposedProps String String))
      (⟨some [("AuthUserSerialized", "OLD")], false, none, []⟩ : ComposedProps String String)
      [("AuthUserSerialized", "OLD")] rfl rfl rfl).1,
    ((C10_unknown_result_discarded_and_overwrite emptyGlobal defaultOpts false
      none none parseStubEmpty verifyStub createStub serializeStub () ⟨""⟩
      rfl rfl).2
      (fun _ _ => some (⟨some [("AuthUserSerialized", "OLD")], false, none, []⟩ : ComposedProps String String))
      (⟨some [("AuthUserSerialized", "OLD")], false, none, []⟩ : ComposedProps String String)
      [("AuthUserSerialized", "OLD")] rfl rfl rfl).2⟩
